import Mathlib

set_option maxRecDepth 8000

/-!
Verification of the ruida-bridge TCP-to-UDP relay.

Shallow embedding of the protocol core:
* `src/udp-relay.ts` (class UdpRelay): byte scrambling, checksum, datagram
  assembly, fragmentation, and the ACK-gated transport state machine.
* `src/connection-handler.ts` (class ConnectionHandler): TCP envelope
  parsing, ping replies, and forwarding of UDP responses back to TCP.
* `src/tcp-server.ts` (class TcpServer): sequential (single-active)
  connection management with a FIFO queue.

Buffers are modelled as `List Nat` (byte values), mutable class fields as
explicit state records, and I/O calls (`socket.send`, `socket.write`,
`udpRelay.sendToLaser`) as actions collected in an ordered list.  Timers
(`setTimeout`/`setInterval`) are modelled by evaluating the scheduled
callback against the state at scheduling time, which is faithful when no
other event intervenes; delayed sends are tagged with a distinct action.
-/

namespace RuidaBridge

/-! ## Protocol constants (connection-handler.ts, `RUIDA_PROTOCOL` and `PacketType`) -/

/-- Maximum UDP packet size including checksum (`RUIDA_PROTOCOL.MAX_UDP_SIZE`). -/
def MAX_UDP_SIZE : Nat := 1472

/-- All is well, send next chunk (`RUIDA_PROTOCOL.ACK_SUCCESS`). -/
def ACK_SUCCESS : Nat := 0xc6

/-- Checksum error or busy (`RUIDA_PROTOCOL.ACK_ERROR`). -/
def ACK_ERROR : Nat := 0x46

/-- Checksum match, handshake response (`RUIDA_PROTOCOL.ACK_CHECKSUM_MATCH`). -/
def ACK_CHECKSUM_MATCH : Nat := 0xcc

/-- Checksum fail (`RUIDA_PROTOCOL.ACK_CHECKSUM_FAIL`). -/
def ACK_CHECKSUM_FAIL : Nat := 0xcf

/-- TCP envelope type byte for laser data (`PacketType.Laser`, the character L). -/
def PacketType.Laser : Nat := 0x4c

/-- TCP envelope type byte for ping (`PacketType.Ping`, the character P). -/
def PacketType.Ping : Nat := 0x50

/-! ## Byte transforms (udp-relay.ts, `swizzleByte` / `encodeBytes` and the
checksum computation inlined in `sendToLaser`) -/

/-- Per-byte scramble (`UdpRelay.swizzleByte`): swap the high bit and the low
bit, XOR with `magic`, then add one modulo 256. -/
def swizzleByte (b : Nat) (magic : Nat := 0x88) : Nat :=
  let fb := b &&& 0x80
  let lb := b &&& 0x01
  let res0 := b - fb - lb
  let res1 := res0 ||| (lb <<< 7)
  let res2 := res1 ||| (fb >>> 7)
  let res3 := res2 ^^^ magic
  (res3 + 1) &&& 0xff

/-- Modelled from the spec: the repository contains no decoder for
`swizzleByte`; the spec describes `unscramble` as the exact inverse —
subtract 1 (mod 256), XOR with `magic`, swap bit 7 and bit 0 back. -/
def unswizzleByte (b : Nat) (magic : Nat := 0x88) : Nat :=
  let res0 := (b + 255) % 256
  let res1 := res0 ^^^ magic
  let fb := res1 &&& 0x80
  let lb := res1 &&& 0x01
  let res2 := res1 - fb - lb
  (res2 ||| (lb <<< 7)) ||| (fb >>> 7)

/-- Scramble a whole buffer (`UdpRelay.encodeBytes`). -/
def encodeBytes (data : List Nat) (magic : Nat := 0x88) : List Nat :=
  data.map (fun b => swizzleByte b magic)

/-- Sixteen-bit arithmetic checksum: sum of all bytes, kept 16-bit
(the `checksum` accumulation loop in `sendToLaser`). -/
def checksum16 (data : List Nat) : Nat :=
  (data.foldl (fun a b => a + b) 0) &&& 0xffff

/-- Datagram assembly as inlined in `sendToLaser`: scramble the payload,
prepend the two-byte checksum of the scrambled bytes, MSB first. -/
def buildDatagram (payload : List Nat) : List Nat :=
  let encodedData := encodeBytes payload
  let checksum := checksum16 encodedData
  ((checksum >>> 8) &&& 0xff) :: (checksum &&& 0xff) :: encodedData

/-- Contiguous slicing loop from `sendToLaser`
(`for (i = 0; i < len; i += MAX_UDP_SIZE) push(subarray(i, min(i+MAX, len)))`),
written with an explicit fuel argument so that it is structurally recursive
(the fuel is a termination device only: one unit per produced chunk, and a
chunk is only produced from a non-empty list). -/
def chunkBytesF : Nat → Nat → List Nat → List (List Nat)
  | 0, _, _ => []
  | _ + 1, _, [] => []
  | fuel + 1, maxSize, b :: rest =>
      ((b :: rest).take maxSize) :: chunkBytesF fuel maxSize ((b :: rest).drop maxSize)

/-- Fragmentation of a datagram into contiguous slices of at most `maxSize`
bytes, in order. -/
def chunkBytes (maxSize : Nat) (data : List Nat) : List (List Nat) :=
  chunkBytesF data.length maxSize data

/-! ## Transport state machine (udp-relay.ts, class `UdpRelay`) -/

/-- Observable side effects of the relay.  `udpSend` is a call to
`socket.send(..., toLaserPort, laserIp)`; `udpSendDelayed` is the same call
scheduled through `setTimeout` (the 100 ms fragment-retry delay);
`startKeepalive` is the call to `startKeepalive()`. -/
inductive RelayAction where
  | udpSend (data : List Nat)
  | udpSendDelayed (data : List Nat)
  | startKeepalive
deriving DecidableEq, Repr

/-- Which branch of `sendToLaser` was taken: the "UDP relay not started"
error, the "waiting for ACK" transport-busy warning, or a transmission. -/
inductive SendResult where
  | notStarted
  | busy
  | ok
deriving DecidableEq, Repr

/-- Mutable fields of class `UdpRelay` (timer handles and the socket object
itself are not modelled; `isStarted` stands for `isStarted && socket != null`,
which the code keeps in lockstep). -/
structure RelayState where
  isStarted : Bool
  gotAck : Bool
  isHandshakeComplete : Bool
  pendingFragments : List (List Nat)
  currentFragmentIndex : Nat
  retryCount : Nat
  maxRetries : Nat
  handshakeRetryCount : Nat
deriving DecidableEq, Repr

/-- Field initializers of class `UdpRelay`. -/
def initialRelayState : RelayState :=
  { isStarted := false
    gotAck := true
    isHandshakeComplete := false
    pendingFragments := []
    currentFragmentIndex := 0
    retryCount := 0
    maxRetries := 3
    handshakeRetryCount := 0 }

/-- `UdpRelay.sendFragment`: bounds-check the index, send the fragment,
and mark that we are waiting for an ACK. -/
def sendFragment (st : RelayState) (fragmentIndex : Nat) : RelayState × List RelayAction :=
  match st.pendingFragments[fragmentIndex]? with
  | none => (st, [])
  | some fragment => ({ st with gotAck := false }, [RelayAction.udpSend fragment])

/-- Tag an action as having been issued from inside a `setTimeout` callback. -/
def delayAction : RelayAction → RelayAction
  | RelayAction.udpSend d => RelayAction.udpSendDelayed d
  | a => a

/-- `UdpRelay.handleAckResponse`: dispatch on the single ACK byte.  The
100 ms retry `setTimeout` is evaluated against the state at scheduling time
(no intervening event), so its `pendingFragments.length > 0` guard is
decided here and its send is tagged with `udpSendDelayed`. -/
def handleAckResponse (st : RelayState) (ackByte : Nat) : RelayState × List RelayAction :=
  if ackByte = ACK_SUCCESS then
    let st1 := { st with gotAck := true, retryCount := 0 }
    if st1.pendingFragments.length > 0 then
      let st2 := { st1 with currentFragmentIndex := st1.currentFragmentIndex + 1 }
      if st2.currentFragmentIndex < st2.pendingFragments.length then
        sendFragment st2 st2.currentFragmentIndex
      else
        ({ st2 with pendingFragments := [], currentFragmentIndex := 0 }, [])
    else (st1, [])
  else if ackByte = ACK_ERROR then
    let st1 := { st with gotAck := false }
    if st1.currentFragmentIndex = 0 ∧ st1.retryCount < st1.maxRetries then
      let st2 := { st1 with retryCount := st1.retryCount + 1 }
      if st2.pendingFragments.length > 0 then
        let r := sendFragment st2 0
        (r.1, r.2.map delayAction)
      else (st2, [])
    else
      ({ st1 with pendingFragments := [], currentFragmentIndex := 0,
                  retryCount := 0, gotAck := true }, [])
  else if ackByte = ACK_CHECKSUM_MATCH then
    ({ st with isHandshakeComplete := true, gotAck := true, handshakeRetryCount := 0 },
     [RelayAction.startKeepalive])
  else if ackByte = ACK_CHECKSUM_FAIL then
    ({ st with isHandshakeComplete := false, gotAck := false }, [])
  else
    ({ st with gotAck := true }, [])

/-- `UdpRelay.sendToLaser`: reject when not started or when still waiting
for an ACK; otherwise scramble, checksum, and either send the datagram as a
single packet or fragment it and send fragment 0. -/
def sendToLaser (st : RelayState) (packetData : List Nat) :
    RelayState × List RelayAction × SendResult :=
  if st.isStarted = false then (st, [], SendResult.notStarted)
  else if st.gotAck = false then (st, [], SendResult.busy)
  else
    let udpPacket := buildDatagram packetData
    if udpPacket.length ≤ MAX_UDP_SIZE then
      ({ st with gotAck := false }, [RelayAction.udpSend udpPacket], SendResult.ok)
    else
      let fragments := chunkBytes MAX_UDP_SIZE udpPacket
      let st1 := { st with pendingFragments := fragments, currentFragmentIndex := 0 }
      let r := sendFragment st1 0
      (r.1, r.2, SendResult.ok)

/-! ## TCP connection handling (connection-handler.ts, class `ConnectionHandler`) -/

/-- Observable side effects at the connection layer.  `tcpWrite` is a call
to `writeToSocket(socket, data)` (the backpressure-aware writer, which
delivers the given bytes to the TCP client in order); `udpSend` is a call
to `udpRelay.sendToLaser(payload)`; `ackSet` instruments an assignment to
`state.gotAck`, recording where in the event order the flag is updated
(the source comments mark this ordering: forward FIRST, THEN mark). -/
inductive ConnAction where
  | tcpWrite (data : List Nat)
  | udpSend (data : List Nat)
  | ackSet (v : Bool)
deriving DecidableEq, Repr

/-- Mutable fields of the per-connection `ConnectionState` record
(timestamps, timer handles and the write queue internals of
`writeToSocket` are not modelled; no claim depends on them). -/
structure ConnState where
  packet : List Nat
  packetLen : Nat
  packetType : Nat
  gotAck : Bool
  lastLen : Nat
deriving DecidableEq, Repr

/-- The `ConnectionState` initializer in `handleConnection`. -/
def initialConnState : ConnState :=
  { packet := [], packetLen := 0, packetType := 0, gotAck := true, lastLen := 0 }

/-- The 3-byte TCP envelope header `[PacketType.Laser, len >> 8 & 0xff,
len & 0xff]` prepended to a UDP response in `forwardUdpResponseToTcp`,
followed by the response bytes. -/
def tcpEnvelope (data : List Nat) : List Nat :=
  PacketType.Laser :: ((data.length >>> 8) &&& 0xff) :: (data.length &&& 0xff) :: data

/-- `ConnectionHandler.handleData`: look up the connection state (early
return when absent), drop the event while `gotAck` is false, append the
bytes to the reassembly buffer, decode a 3-byte header once available,
and when a full payload is buffered dispatch on the envelope type. -/
def handleData (version : Nat × Nat) (stateOpt : Option ConnState) (data : List Nat) :
    Option ConnState × List ConnAction :=
  match stateOpt with
  | none => (none, [])
  | some st0 =>
    if st0.gotAck = false then (some st0, [])
    else
      let st1 := { st0 with packet := st0.packet ++ data }
      let st2 :=
        if st1.packetLen = 0 ∧ 3 ≤ st1.packet.length then
          { st1 with
            packetType := st1.packet.getD 0 0
            packetLen := ((st1.packet.getD 1 0) <<< 8) + st1.packet.getD 2 0
            packet := st1.packet.drop 3 }
        else st1
      if 0 < st2.packetLen ∧ st2.packetLen ≤ st2.packet.length then
        let packetData := st2.packet.take st2.packetLen
        let st3 := { st2 with packet := st2.packet.drop st2.packetLen, packetLen := 0 }
        if st3.packetType = PacketType.Laser then
          (some { st3 with lastLen := packetData.length, gotAck := false },
           [ConnAction.udpSend packetData])
        else if st3.packetType = PacketType.Ping then
          (some st3,
           [ConnAction.tcpWrite [PacketType.Ping, 0x00, 0x02, version.1, version.2]])
        else (some st3, [])
      else (some st2, [])

/-- `ConnectionHandler.forwardUdpResponseToTcp`: wrap the UDP response in a
Data envelope and write it to the TCP client first (when the socket is
open), then update the connection's `gotAck` flag according to the
response: single-byte success/handshake-ack set it, single-byte
error/handshake-fail clear readiness, any other single byte leaves it
untouched, and everything else marks ready. -/
def forwardUdpResponseToTcp (stateOpt : Option ConnState) (socketClosed : Bool)
    (data : List Nat) : Option ConnState × List ConnAction :=
  match stateOpt with
  | none => (none, [])
  | some st =>
    let writes :=
      if socketClosed = false then [ConnAction.tcpWrite (tcpEnvelope data)] else []
    if data.length = 1 then
      let ackByte := data.getD 0 0
      if ackByte = ACK_SUCCESS ∨ ackByte = ACK_CHECKSUM_MATCH then
        (some { st with gotAck := true }, writes ++ [ConnAction.ackSet true])
      else if ackByte = ACK_ERROR ∨ ackByte = ACK_CHECKSUM_FAIL then
        (some { st with gotAck := false }, writes ++ [ConnAction.ackSet false])
      else (some st, writes)
    else
      (some { st with gotAck := true }, writes ++ [ConnAction.ackSet true])

/-! ## Sequential connection management (tcp-server.ts, class `TcpServer`)

Sockets are identified by natural numbers; the external fact of a socket
being closed is a predicate `closed : Nat → Bool` passed to the functions
that read `socket.closed`.  The `activated` list instruments which sockets
`connectionHandler.handleConnection` has been invoked for, i.e. which
sockets own a `ConnectionState`: only those can dispatch envelopes
(`handleData` with no state returns immediately). -/

structure ServerState where
  currentConnection : Option Nat
  connectionQueue : List Nat
  isProcessingConnection : Bool
  activated : List Nat
deriving DecidableEq, Repr

/-- Field initializers of class `TcpServer`. -/
def initialServerState : ServerState :=
  { currentConnection := none, connectionQueue := [], isProcessingConnection := false,
    activated := [] }

/-- `TcpServer.processConnection`: claim the active slot and hand the socket
to the connection handler (which creates its `ConnectionState`). -/
def processConnection (sock : Nat) (st : ServerState) : ServerState :=
  { st with currentConnection := some sock, isProcessingConnection := true,
            activated := st.activated ++ [sock] }

/-- `TcpServer.handleNewConnection`: queue when a connection is being
processed or the active slot is taken, otherwise activate immediately. -/
def handleNewConnection (sock : Nat) (st : ServerState) : ServerState :=
  if st.isProcessingConnection = true ∨ st.currentConnection.isSome = true then
    { st with connectionQueue := st.connectionQueue ++ [sock] }
  else processConnection sock st

/-- `TcpServer.processNextConnection`: first drop closed sockets from the
queue, then (when not already processing) shift the head and activate it
if still open, recursing otherwise.  Written with a fuel argument so the
recursion (on an ever-shorter queue) is structural; the fuel is a
termination device only. -/
def processNextConnectionF (closed : Nat → Bool) : Nat → ServerState → ServerState
  | 0, st => st
  | fuel + 1, st =>
    match st.connectionQueue.filter (fun s => !closed s) with
    | [] => { st with connectionQueue := [] }
    | n :: rest =>
      if st.isProcessingConnection = true then
        { st with connectionQueue := n :: rest }
      else if closed n = false then
        processConnection n { st with connectionQueue := rest }
      else
        processNextConnectionF closed fuel { st with connectionQueue := rest }

/-- `TcpServer.processNextConnection` with enough fuel for its queue. -/
def processNextConnection (closed : Nat → Bool) (st : ServerState) : ServerState :=
  processNextConnectionF closed (st.connectionQueue.length + 1) st

/-- The `cleanup` closure installed by `processConnection` and run from the
socket close/error hooks: when the closing socket holds the active slot,
clear it and activate the next queued connection. -/
def socketCleanup (closed : Nat → Bool) (sock : Nat) (st : ServerState) : ServerState :=
  if st.currentConnection = some sock then
    processNextConnection closed
      { st with currentConnection := none, isProcessingConnection := false }
  else st

/-- The record returned by `TcpServer.getConnectionStats` (the health
endpoint's data source). -/
structure ConnectionStats where
  current : Nat
  queued : Nat
  processing : Bool
deriving DecidableEq, Repr

/-- `TcpServer.getConnectionStats`: drop closed sockets from the queue,
then report the active-slot occupancy, the queue depth, and the
processing flag. -/
def getConnectionStats (closed : Nat → Bool) (st : ServerState) :
    ServerState × ConnectionStats :=
  let q := st.connectionQueue.filter (fun s => !closed s)
  ({ st with connectionQueue := q },
   { current := if st.currentConnection.isSome then 1 else 0
     queued := q.length
     processing := st.isProcessingConnection })

/-! ## Helper lemmas -/

theorem and255_eq_mod (n : Nat) : n &&& 255 = n % 256 := by
  have h := Nat.and_pow_two_sub_one_eq_mod n 8
  norm_num at h
  exact h

theorem and65535_eq_mod (n : Nat) : n &&& 65535 = n % 65536 := by
  have h := Nat.and_pow_two_sub_one_eq_mod n 16
  norm_num at h
  exact h

theorem shiftRight8_eq_div (n : Nat) : n >>> 8 = n / 256 := by
  have h := Nat.shiftRight_eq_div_pow n 8
  norm_num at h
  exact h

theorem chunkBytesF_join {m : Nat} (hm : 0 < m) :
    ∀ (fuel : Nat) (d : List Nat), d.length ≤ fuel → (chunkBytesF fuel m d).flatten = d := by
  intro fuel
  induction fuel with
  | zero =>
    intro d hd
    have hnil : d = [] := List.length_eq_zero.mp (Nat.le_zero.mp hd)
    subst hnil
    rfl
  | succ fuel ih =>
    intro d hd
    cases d with
    | nil => rfl
    | cons b rest =>
      simp only [chunkBytesF, List.flatten_cons]
      rw [ih ((b :: rest).drop m) ?_]
      · exact List.take_append_drop m (b :: rest)
      · rw [List.length_drop]
        simp only [List.length_cons] at hd ⊢
        omega

theorem chunkBytes_join {m : Nat} (hm : 0 < m) (d : List Nat) :
    (chunkBytes m d).flatten = d :=
  chunkBytesF_join hm d.length d (Nat.le_refl _)

theorem chunkBytesF_mem_length (m : Nat) :
    ∀ (fuel : Nat) (d c : List Nat), c ∈ chunkBytesF fuel m d → c.length ≤ m := by
  intro fuel
  induction fuel with
  | zero =>
    intro d c hc
    simp [chunkBytesF] at hc
  | succ fuel ih =>
    intro d c hc
    cases d with
    | nil => simp [chunkBytesF] at hc
    | cons b rest =>
      simp only [chunkBytesF, List.mem_cons] at hc
      rcases hc with h | h
      · subst h
        rw [List.length_take]
        omega
      · exact ih _ _ h

theorem chunkBytes_mem_length (m : Nat) (d c : List Nat) (hc : c ∈ chunkBytes m d) :
    c.length ≤ m :=
  chunkBytesF_mem_length m d.length d c hc

theorem chunkBytesF_nil (fuel m : Nat) : chunkBytesF fuel m [] = [] := by
  cases fuel <;> rfl

theorem chunkBytesF_cons_succ (fuel m : Nat) (d : List Nat) (hd : d ≠ []) :
    chunkBytesF (fuel + 1) m d = d.take m :: chunkBytesF fuel m (d.drop m) := by
  cases d with
  | nil => exact absurd rfl hd
  | cons b rest => rfl

theorem chunkBytesF_replicate_step (fuel m n : Nat) (hn : 0 < n) :
    chunkBytesF (fuel + 1) m (List.replicate n (0 : Nat))
      = List.replicate (min m n) 0 :: chunkBytesF fuel m (List.replicate (n - m) 0) := by
  rw [chunkBytesF_cons_succ _ _ _ (by simp only [ne_eq, List.replicate_eq_nil_iff]; omega)]
  rw [List.take_replicate, List.drop_replicate]

theorem chunkBytes_replicate3000 :
    chunkBytes MAX_UDP_SIZE (List.replicate 3000 (0 : Nat))
      = [List.replicate 1472 (0 : Nat), List.replicate 1472 (0 : Nat),
         List.replicate 56 (0 : Nat)] := by
  have h0 : chunkBytes MAX_UDP_SIZE (List.replicate 3000 (0 : Nat))
      = chunkBytesF 3000 1472 (List.replicate 3000 0) := by
    unfold chunkBytes MAX_UDP_SIZE
    rw [List.length_replicate]
  rw [h0]
  rw [show (3000 : Nat) = 2999 + 1 from rfl]
  rw [chunkBytesF_replicate_step 2999 1472 (2999 + 1) (by norm_num)]
  rw [show min 1472 (2999 + 1) = 1472 from by norm_num,
      show (2999 + 1) - 1472 = 1528 from by norm_num]
  rw [show (2999 : Nat) = 2998 + 1 from rfl]
  rw [chunkBytesF_replicate_step 2998 1472 1528 (by norm_num)]
  rw [show min 1472 1528 = 1472 from by norm_num,
      show (1528 : Nat) - 1472 = 56 from by norm_num]
  rw [show (2998 : Nat) = 2997 + 1 from rfl]
  rw [chunkBytesF_replicate_step 2997 1472 56 (by norm_num)]
  rw [show min 1472 56 = 56 from by norm_num,
      show (56 : Nat) - 1472 = 0 from by norm_num]
  rw [show List.replicate 0 (0 : Nat) = [] from rfl, chunkBytesF_nil]

/-! ## Claims -/

/-- Claim C3: for every payload P, the datagram built for transmission has
length len(P) + 2; its first two bytes are the big-endian 16-bit arithmetic
sum of the scrambled payload bytes (checksum of scramble(P) truncated to 16
bits), and they are followed by the scrambled payload. -/
theorem claim_C3 (P : List Nat) :
    (buildDatagram P).length = P.length + 2 ∧
    ((buildDatagram P).getD 0 0) * 256 + (buildDatagram P).getD 1 0
      = ((encodeBytes P).foldl (fun a b => a + b) 0) % 65536 ∧
    (buildDatagram P).drop 2 = encodeBytes P := by
  have hS : checksum16 (encodeBytes P)
      = ((encodeBytes P).foldl (fun a b => a + b) 0) % 65536 := and65535_eq_mod _
  have hlt : checksum16 (encodeBytes P) < 65536 := by
    rw [hS]; exact Nat.mod_lt _ (by norm_num)
  have hb : buildDatagram P
      = ((checksum16 (encodeBytes P) >>> 8) &&& 0xff)
        :: (checksum16 (encodeBytes P) &&& 0xff) :: encodeBytes P := rfl
  refine ⟨?_, ?_, ?_⟩
  · rw [hb]
    simp [encodeBytes]
  · rw [hb]
    simp only [List.getD_cons_zero, List.getD_cons_succ]
    rw [shiftRight8_eq_div, and255_eq_mod, and255_eq_mod, ← hS]
    omega
  · rw [hb]
    rfl

/-- Claim C4: for every datagram D longer than 1472 bytes, fragmentation
produces contiguous slices each of length at most 1472 whose in-order
concatenation is exactly D; in particular a 3000-byte datagram yields
fragments of lengths [1472, 1472, 56]. -/
theorem claim_C4 (D : List Nat) (h : MAX_UDP_SIZE < D.length) :
    (∀ c ∈ chunkBytes MAX_UDP_SIZE D, c.length ≤ MAX_UDP_SIZE) ∧
    (chunkBytes MAX_UDP_SIZE D).flatten = D ∧
    (chunkBytes MAX_UDP_SIZE (List.replicate 3000 0)).map List.length = [1472, 1472, 56] ∧
    (chunkBytes MAX_UDP_SIZE (List.replicate 3000 0)).flatten = List.replicate 3000 0 := by
  refine ⟨fun c hc => chunkBytes_mem_length _ _ _ hc,
    chunkBytes_join (by norm_num [MAX_UDP_SIZE]) D, ?_,
    chunkBytes_join (by norm_num [MAX_UDP_SIZE]) _⟩
  rw [chunkBytes_replicate3000]
  simp

/-- Witness for C4 at the 3000-byte datagram of the claim. -/
theorem claim_C4_witness :
    MAX_UDP_SIZE < (List.replicate 3000 (0 : Nat)).length ∧
    (chunkBytes MAX_UDP_SIZE (List.replicate 3000 (0 : Nat))).flatten
      = List.replicate 3000 (0 : Nat) := by
  have h : MAX_UDP_SIZE < (List.replicate 3000 (0 : Nat)).length := by
    norm_num [MAX_UDP_SIZE]
  exact ⟨h, (claim_C4 (List.replicate 3000 0) h).2.1⟩

/-- Claim C5: the per-byte scramble transform is invertible — for every byte
value b in 0–255, the inverse transform applied to scramble(b) yields b. -/
theorem claim_C5 : ∀ b : Nat, b < 256 → unswizzleByte (swizzleByte b) = b := by decide

/-- Witness for C5 at the byte 0xa5. -/
theorem claim_C5_witness :
    (0xa5 : Nat) < 256 ∧ unswizzleByte (swizzleByte 0xa5) = 0xa5 :=
  ⟨by norm_num, claim_C5 0xa5 (by norm_num)⟩

/-- Claim C1: in every started transport state in which the ack-wait flag
is set (gotAck = false), sendToLaser rejects any payload with the
transport-busy signal, transmits nothing, and leaves the whole transport
state — in particular the pending fragment list, the current fragment
index and the retry counter — unchanged. -/
theorem claim_C1 (st : RelayState) (payload : List Nat)
    (hStarted : st.isStarted = true) (hWait : st.gotAck = false) :
    sendToLaser st payload = (st, [], SendResult.busy) := by
  simp [sendToLaser, hStarted, hWait]

/-- Witness for C1: a started, ack-waiting state with an in-flight
fragment list rejects a concrete payload unchanged. -/
theorem claim_C1_witness :
    sendToLaser ⟨true, false, false, [[1, 2]], 1, 2, 3, 0⟩ [1, 2, 3]
      = (⟨true, false, false, [[1, 2]], 1, 2, 3, 0⟩, [], SendResult.busy) :=
  claim_C1 ⟨true, false, false, [[1, 2]], 1, 2, 3, 0⟩ [1, 2, 3] rfl rfl

/-- Claim C2 (amended): on an error ack (0x46), if the current fragment
index is 0 and the retry counter is below the maximum, the retry counter
is incremented, the ack-wait flag stays set, the fragment list and index
are untouched, and — provided the pending fragment list is non-empty —
fragment 0 is resent verbatim after a short delay; when the pending list
is empty (an unfragmented transmission) nothing is resent.  Otherwise the
whole transmission is aborted: the pending fragment list is emptied, the
fragment index and retry counter reset to 0, and the ack-wait flag is
forcibly cleared so new sends can proceed. -/
theorem claim_C2 (st : RelayState) :
    (st.currentFragmentIndex = 0 ∧ st.retryCount < st.maxRetries →
      (handleAckResponse st ACK_ERROR).1.retryCount = st.retryCount + 1 ∧
      (handleAckResponse st ACK_ERROR).1.gotAck = false ∧
      (handleAckResponse st ACK_ERROR).1.pendingFragments = st.pendingFragments ∧
      (handleAckResponse st ACK_ERROR).1.currentFragmentIndex = st.currentFragmentIndex ∧
      (handleAckResponse st ACK_ERROR).2 =
        (match st.pendingFragments.head? with
         | some frag0 => [RelayAction.udpSendDelayed frag0]
         | none => [])) ∧
    (¬(st.currentFragmentIndex = 0 ∧ st.retryCount < st.maxRetries) →
      (handleAckResponse st ACK_ERROR).1 =
        { st with pendingFragments := [], currentFragmentIndex := 0,
                  retryCount := 0, gotAck := true } ∧
      (handleAckResponse st ACK_ERROR).2 = []) := by
  constructor
  · intro hc
    cases hp : st.pendingFragments with
    | nil =>
      simp [handleAckResponse, ACK_ERROR, ACK_SUCCESS, hc, hp, sendFragment]
    | cons f fs =>
      simp [handleAckResponse, ACK_ERROR, ACK_SUCCESS, hc, hp, sendFragment, delayAction]
  · intro hc
    simp [handleAckResponse, ACK_ERROR, ACK_SUCCESS, hc]

/-- Counterexample for C2 as frozen: in the reachable state left by an
unfragmented transmission (pending fragment list empty, fragment index 0,
no retries used), an error ack takes the retry branch — the retry counter
is incremented — yet nothing is resent (the action list is empty), while
the claim asserts that fragment 0 is resent verbatim after a short delay. -/
theorem claim_C2_counterexample :
    (⟨true, false, false, [], 0, 0, 3, 0⟩ : RelayState).currentFragmentIndex = 0 ∧
    (⟨true, false, false, [], 0, 0, 3, 0⟩ : RelayState).retryCount
      < (⟨true, false, false, [], 0, 0, 3, 0⟩ : RelayState).maxRetries ∧
    handleAckResponse ⟨true, false, false, [], 0, 0, 3, 0⟩ ACK_ERROR
      = (⟨true, false, false, [], 0, 1, 3, 0⟩, []) := by
  refine ⟨rfl, by norm_num, ?_⟩
  simp [handleAckResponse, ACK_ERROR, ACK_SUCCESS, sendFragment]

/-- Witness for C2 (amended) on a fragmented transmission: the retry
branch resends fragment 0 verbatim as a delayed send. -/
theorem claim_C2_witness :
    (handleAckResponse ⟨true, false, false, [[9, 9], [7]], 0, 1, 3, 0⟩ ACK_ERROR).1.retryCount
      = 2 ∧
    (handleAckResponse ⟨true, false, false, [[9, 9], [7]], 0, 1, 3, 0⟩ ACK_ERROR).2
      = [RelayAction.udpSendDelayed [9, 9]] := by
  have h := (claim_C2 ⟨true, false, false, [[9, 9], [7]], 0, 1, 3, 0⟩).1 (by norm_num)
  exact ⟨h.1, h.2.2.2.2⟩

/-- Claim C9: a single-byte inbound datagram whose byte is none of the four
recognized ack codes (0xC6, 0x46, 0xCC, 0xCF) is treated like a success for
flow control: the transport-level ack-wait flag is cleared (gotAck set
true) and nothing else changes — in particular the pending fragment list
and the current fragment index are untouched, and nothing is sent. -/
theorem claim_C9 (st : RelayState) (b : Nat)
    (h1 : b ≠ ACK_SUCCESS) (h2 : b ≠ ACK_ERROR)
    (h3 : b ≠ ACK_CHECKSUM_MATCH) (h4 : b ≠ ACK_CHECKSUM_FAIL) :
    handleAckResponse st b = ({ st with gotAck := true }, []) := by
  unfold handleAckResponse
  rw [if_neg h1, if_neg h2, if_neg h3, if_neg h4]

/-- Witness for C9 at the unknown ack byte 0x99. -/
theorem claim_C9_witness :
    handleAckResponse ⟨true, false, false, [[5]], 0, 1, 3, 0⟩ 0x99
      = (⟨true, true, false, [[5]], 0, 1, 3, 0⟩, []) :=
  claim_C9 ⟨true, false, false, [[5]], 0, 1, 3, 0⟩ 0x99
    (by norm_num [ACK_SUCCESS]) (by norm_num [ACK_ERROR])
    (by norm_num [ACK_CHECKSUM_MATCH]) (by norm_num [ACK_CHECKSUM_FAIL])

/-- Claim C6 (amended): while a connection's ack-wait flag is set,
handleData returns immediately — the incoming bytes are discarded (they
are never appended to the reassembly buffer and no action is taken), not
held for later; only bytes that arrive after the flag clears are parsed. -/
theorem claim_C6 (version : Nat × Nat) (st : ConnState) (data : List Nat)
    (hWait : st.gotAck = false) :
    handleData version (some st) data = (some st, []) := by
  simp [handleData, hWait]

/-- Counterexample for C6 as frozen: three bytes delivered while the
ack-wait flag is set leave the connection state completely unchanged —
the reassembly buffer is still empty, so the bytes are not retained
anywhere and can never be parsed after the flag clears — while the claim
asserts they are held unconsumed (retained, not lost). -/
theorem claim_C6_counterexample :
    (⟨[], 0, 0, false, 0⟩ : ConnState).packet = [] ∧
    handleData (1, 0) (some ⟨[], 0, 0, false, 0⟩) [0x50, 0x00, 0x00]
      = (some ⟨[], 0, 0, false, 0⟩, []) :=
  ⟨rfl, claim_C6 (1, 0) ⟨[], 0, 0, false, 0⟩ [0x50, 0x00, 0x00] rfl⟩

/-- Witness for C6 (amended) at a concrete paused connection. -/
theorem claim_C6_witness :
    handleData (1, 0) (some ⟨[0x4c], 3, 0x4c, false, 2⟩) [7, 8, 9]
      = (some ⟨[0x4c], 3, 0x4c, false, 2⟩, []) :=
  claim_C6 (1, 0) ⟨[0x4c], 3, 0x4c, false, 2⟩ [7, 8, 9] rfl

/-- Claim C7 (amended): on a fresh connection the Ping envelope
[0x50, 0x00, 0x00] is parsed (type recorded, length decoded as 0) but —
because a declared length of 0 never satisfies the packetLen > 0
processing condition — no reply is written and no UDP traffic is
generated; a Ping envelope with a non-zero declared length, such as
[0x50, 0x00, 0x02, p1, p2], elicits the 5-byte reply
[0x50, 0x00, 0x02, verMajor, verMinor] and still generates no UDP
traffic. -/
theorem claim_C7 (verMajor verMinor p1 p2 : Nat) :
    handleData (verMajor, verMinor) (some initialConnState) [0x50, 0x00, 0x00]
      = (some ⟨[], 0, 0x50, true, 0⟩, []) ∧
    handleData (verMajor, verMinor) (some initialConnState) [0x50, 0x00, 0x02, p1, p2]
      = (some ⟨[], 0, 0x50, true, 0⟩,
         [ConnAction.tcpWrite [0x50, 0x00, 0x02, verMajor, verMinor]]) := by
  constructor
  · simp [handleData, initialConnState, PacketType.Laser, PacketType.Ping]
  · simp [handleData, initialConnState, PacketType.Laser, PacketType.Ping]

/-- Counterexample for C7 as frozen: delivering [0x50, 0x00, 0x00] to a
fresh connection produces no actions at all — in particular the 5-byte
version reply is never written — while the claim asserts the reply
[0x50, 0x00, 0x02, verMajor, verMinor] is written back. -/
theorem claim_C7_counterexample :
    handleData (1, 0) (some initialConnState) [0x50, 0x00, 0x00]
      = (some ⟨[], 0, 0x50, true, 0⟩, []) :=
  (claim_C7 1 0 0 0).1

/-- Claim C10 (amended): when a UDP response arrives for an open
connection, it is forwarded to the TCP client first, wrapped in a Data
envelope (the first action is always the tcpWrite of the envelope, ahead
of any flag update); afterwards the connection-level ack-wait flag is
cleared exactly by single-byte 0xC6/0xCC responses and by any response
whose length is not 1 (including the empty datagram), is set (connection
stays paused) by single-byte 0x46/0xCF responses, and is left untouched
by any other single byte. -/
theorem claim_C10 (st : ConnState) (data : List Nat) :
    (forwardUdpResponseToTcp (some st) false data).2.head?
        = some (ConnAction.tcpWrite (tcpEnvelope data)) ∧
    (data.length = 1 ∧ (data.getD 0 0 = ACK_SUCCESS ∨ data.getD 0 0 = ACK_CHECKSUM_MATCH) →
      forwardUdpResponseToTcp (some st) false data
        = (some { st with gotAck := true },
           [ConnAction.tcpWrite (tcpEnvelope data), ConnAction.ackSet true])) ∧
    (data.length = 1 ∧ (data.getD 0 0 = ACK_ERROR ∨ data.getD 0 0 = ACK_CHECKSUM_FAIL) →
      forwardUdpResponseToTcp (some st) false data
        = (some { st with gotAck := false },
           [ConnAction.tcpWrite (tcpEnvelope data), ConnAction.ackSet false])) ∧
    (data.length = 1 ∧ data.getD 0 0 ≠ ACK_SUCCESS ∧ data.getD 0 0 ≠ ACK_CHECKSUM_MATCH ∧
        data.getD 0 0 ≠ ACK_ERROR ∧ data.getD 0 0 ≠ ACK_CHECKSUM_FAIL →
      forwardUdpResponseToTcp (some st) false data
        = (some st, [ConnAction.tcpWrite (tcpEnvelope data)])) ∧
    (data.length ≠ 1 →
      forwardUdpResponseToTcp (some st) false data
        = (some { st with gotAck := true },
           [ConnAction.tcpWrite (tcpEnvelope data), ConnAction.ackSet true])) := by
  cases data with
  | nil =>
    refine ⟨by simp [forwardUdpResponseToTcp], ?_, ?_, ?_, ?_⟩
    · rintro ⟨h, -⟩; simp at h
    · rintro ⟨h, -⟩; simp at h
    · rintro ⟨h, -, -, -, -⟩; simp at h
    · intro h; simp [forwardUdpResponseToTcp]
  | cons x xs =>
    cases xs with
    | nil =>
      have hgd : ([x] : List Nat).getD 0 0 = x := rfl
      by_cases hA : x = ACK_SUCCESS ∨ x = ACK_CHECKSUM_MATCH
      · refine ⟨?_, ?_, ?_, ?_, ?_⟩
        · simp [forwardUdpResponseToTcp, hgd, hA]
        · intro h; simp [forwardUdpResponseToTcp, hgd, hA]
        · rintro ⟨-, h⟩
          have hB : ¬(x = ACK_ERROR ∨ x = ACK_CHECKSUM_FAIL) := by
            rcases hA with h2 | h2 <;> subst h2 <;>
              norm_num [ACK_SUCCESS, ACK_ERROR, ACK_CHECKSUM_MATCH, ACK_CHECKSUM_FAIL]
          exact absurd h hB
        · rintro ⟨-, h1, h2, -, -⟩
          rcases hA with h3 | h3
          · exact absurd h3 h1
          · exact absurd h3 h2
        · intro h; exact absurd rfl h
      · by_cases hB : x = ACK_ERROR ∨ x = ACK_CHECKSUM_FAIL
        · refine ⟨?_, ?_, ?_, ?_, ?_⟩
          · simp [forwardUdpResponseToTcp, hgd, hA, hB]
          · rintro ⟨-, h⟩; exact absurd h hA
          · intro h; simp [forwardUdpResponseToTcp, hgd, hA, hB]
          · rintro ⟨-, -, -, h3, h4⟩
            rcases hB with h5 | h5
            · exact absurd h5 h3
            · exact absurd h5 h4
          · intro h; exact absurd rfl h
        · refine ⟨?_, ?_, ?_, ?_, ?_⟩
          · simp [forwardUdpResponseToTcp, hgd, hA, hB]
          · rintro ⟨-, h⟩; exact absurd h hA
          · rintro ⟨-, h⟩; exact absurd h hB
          · intro h; simp [forwardUdpResponseToTcp, hgd, hA, hB]
          · intro h; exact absurd rfl h
    | cons y ys =>
      have hlen : (x :: y :: ys).length ≠ 1 := by simp
      refine ⟨?_, ?_, ?_, ?_, ?_⟩
      · simp [forwardUdpResponseToTcp, hlen]
      · rintro ⟨h, -⟩; exact absurd h hlen
      · rintro ⟨h, -⟩; exact absurd h hlen
      · rintro ⟨h, -, -, -, -⟩; exact absurd h hlen
      · intro h; simp [forwardUdpResponseToTcp, hlen]

/-- Counterexample for C10 as frozen: an empty inbound datagram is
neither a single-byte 0xC6/0xCC ack nor a multi-byte datagram, yet it
clears the connection-level ack-wait flag, so the flag is not cleared
*only* by the responses the claim lists. -/
theorem claim_C10_counterexample :
    ([] : List Nat).length = 0 ∧
    (forwardUdpResponseToTcp (some ⟨[], 0, 0, false, 0⟩) false []).1
      = some (⟨[], 0, 0, true, 0⟩ : ConnState) := by
  exact ⟨rfl, by simp [forwardUdpResponseToTcp, tcpEnvelope]⟩

/-- Witness for C10 (amended): a success ack 0xC6 is forwarded in a Data
envelope first and then clears the flag. -/
theorem claim_C10_witness :
    forwardUdpResponseToTcp (some ⟨[], 0, 0, false, 0⟩) false [0xc6]
      = (some (⟨[], 0, 0, true, 0⟩ : ConnState),
         [ConnAction.tcpWrite (tcpEnvelope [0xc6]), ConnAction.ackSet true]) :=
  (claim_C10 ⟨[], 0, 0, false, 0⟩ [0xc6]).2.1 ⟨rfl, Or.inl rfl⟩

/-- Claim C8: at most one TCP connection is active at any instant.  For
two open connections accepted in order a then b from the initial server
state: a takes the active slot and b is queued (so b owns no connection
state and its envelopes cannot be dispatched — handleData without a state
does nothing), the reported queue depth is 1 while b waits, and when a's
session is removed b is activated.  In general, when the active slot is
free, processNextConnection activates the first still-open queued
connection, skipping already-closed entries, in FIFO order. -/
theorem claim_C8 (closed : Nat → Bool) (a b : Nat)
    (ha : closed a = false) (hb : closed b = false) (hab : a ≠ b) :
    handleNewConnection b (handleNewConnection a initialServerState)
      = { currentConnection := some a, connectionQueue := [b],
          isProcessingConnection := true, activated := [a] } ∧
    b ∉ (handleNewConnection b (handleNewConnection a initialServerState)).activated ∧
    (∀ (version : Nat × Nat) (d : List Nat), handleData version none d = (none, [])) ∧
    (getConnectionStats closed
        (handleNewConnection b (handleNewConnection a initialServerState))).2.queued = 1 ∧
    socketCleanup closed a (handleNewConnection b (handleNewConnection a initialServerState))
      = { currentConnection := some b, connectionQueue := [],
          isProcessingConnection := true, activated := [a, b] } ∧
    (∀ st : ServerState, st.isProcessingConnection = false →
      (processNextConnection closed st).currentConnection
        = (match (st.connectionQueue.filter (fun s => !closed s)).head? with
           | some n => some n
           | none => st.currentConnection)) := by
  have hs2 : handleNewConnection b (handleNewConnection a initialServerState)
      = { currentConnection := some a, connectionQueue := [b],
          isProcessingConnection := true, activated := [a] } := by
    simp [handleNewConnection, processConnection, initialServerState]
  refine ⟨hs2, ?_, ?_, ?_, ?_, ?_⟩
  · rw [hs2]
    simp [hab.symm]
  · intro version d
    rfl
  · rw [hs2]
    simp [getConnectionStats, hb]
  · rw [hs2]
    simp only [socketCleanup, if_pos rfl]
    simp [processNextConnection, processNextConnectionF, hb, processConnection]
  · intro st hst
    unfold processNextConnection processNextConnectionF
    cases hq : st.connectionQueue.filter (fun s => !closed s) with
    | nil => simp
    | cons n rest =>
      have hn : closed n = false := by
        have hmem : n ∈ st.connectionQueue.filter (fun s => !closed s) := by
          rw [hq]; exact List.mem_cons_self n rest
        have := List.of_mem_filter hmem
        simpa using this
      simp [hst, hn, processConnection]

/-- Witness for C8 with two distinct open sockets 0 and 1. -/
theorem claim_C8_witness :
    handleNewConnection 1 (handleNewConnection 0 initialServerState)
      = { currentConnection := some 0, connectionQueue := [1],
          isProcessingConnection := true, activated := [0] } ∧
    (getConnectionStats (fun _ => false)
        (handleNewConnection 1 (handleNewConnection 0 initialServerState))).2.queued = 1 ∧
    socketCleanup (fun _ => false) 0
        (handleNewConnection 1 (handleNewConnection 0 initialServerState))
      = { currentConnection := some 1, connectionQueue := [],
          isProcessingConnection := true, activated := [0, 1] } := by
  have h := claim_C8 (fun _ => false) 0 1 rfl rfl (by norm_num)
  exact ⟨h.1, h.2.2.2.1, h.2.2.2.2.1⟩

end RuidaBridge
